import Mathlib

/-!
Verification of the port-scanner / process-terminator core of the
`portopotty` application (src/src-tauri/src/main.rs), as a shallow
embedding in Lean 4.

The OS is modelled as a snapshot: the result of the socket-table read
(`Except String (List SocketInfo)`, mirroring `get_sockets_info`) and the
process table as a lookup function (mirroring the `sysinfo::System`
process map).  `scan_ports` additionally returns the list of OS queries
it issued, in order, so that frame claims ("no OS query is performed")
are statable.  `kill_pid` is parameterised by a command runner
(`List String → CmdResult`, the full command line) and likewise returns
the trace of commands issued; the `windows` and `not(windows)` `cfg`
branches of the source become the two functions `kill_pid_windows` and
`kill_pid_unix`.
-/

/-- An inclusive pair of port numbers, mirroring `struct PortRange`
(`start: u16, end: u16`). Ports are modelled as `Nat`. -/
structure PortRange where
  start : Nat
  «end» : Nat
deriving DecidableEq, Repr

/-- The TCP state distinctions the program makes: `TcpState::Listen`
versus everything else. -/
inductive TcpState where
  | listen
  | other
deriving DecidableEq, Repr

/-- The fields of `netstat2`'s TCP socket info that the program reads:
`local_port` and `state`. -/
structure TcpSocketInfo where
  local_port : Nat
  state : TcpState
deriving DecidableEq, Repr

/-- `ProtocolSocketInfo`: either a TCP socket or something else
(the `_ => continue` arm of the source's match). -/
inductive ProtocolSocketInfo where
  | tcp (t : TcpSocketInfo)
  | other
deriving DecidableEq, Repr

/-- One row of the socket table: its protocol info and its associated
(owning) PIDs, which may be zero or several. -/
structure SocketInfo where
  protocol_socket_info : ProtocolSocketInfo
  associated_pids : List Nat
deriving DecidableEq, Repr

/-- The per-process data the program reads from `sysinfo`:
`name` and `run_time` (seconds). -/
structure ProcessRecord where
  name : String
  run_time : Nat
deriving DecidableEq, Repr

/-- Output record, mirroring `struct ListenerInfo`. -/
structure ListenerInfo where
  port : Nat
  pid : Nat
  process_name : Option String
  started_seconds_ago : Option Nat
deriving DecidableEq, Repr

/-- The two OS queries `scan_ports` can issue: the socket-table read
(`get_sockets_info`) and the process-table read
(`System::new_all` / `refresh_processes`). -/
inductive Query where
  | socketTable
  | processTable
deriving DecidableEq, Repr

/-- A snapshot of the OS state `scan_ports` would observe: the outcome of
the socket-table read and the process table as a PID-keyed lookup. -/
structure OsSnapshot where
  sockets : Except String (List SocketInfo)
  process : Nat → Option ProcessRecord

/-- `in_any_range` from the source: a port is in a `PortRange` after
normalising the endpoints (`if r.start <= r.end {(start,end)} else
{(end,start)}`), and in a list of ranges if in any of them. -/
def in_any_range (port : Nat) (ranges : List PortRange) : Bool :=
  ranges.any fun r =>
    let a := if r.start ≤ r.«end» then r.start else r.«end»
    let b := if r.start ≤ r.«end» then r.«end» else r.start
    decide (port ≥ a) && decide (port ≤ b)

/-- The `ListenerInfo` the loop body of `scan_ports` pushes for one
(port, pid) pair: the process lookup fills the optional fields, both
`none` when the PID is absent from the snapshot. -/
def listener_row (process : Nat → Option ProcessRecord) (port pid : Nat) :
    ListenerInfo :=
  { port := port
    pid := pid
    process_name := (process pid).map ProcessRecord.name
    started_seconds_ago := (process pid).map ProcessRecord.run_time }

/-- The rows contributed by one socket in the `for socket in sockets`
loop of `scan_ports`: skip non-TCP sockets, skip non-listening sockets,
skip out-of-range ports, then one row per associated PID. -/
def socket_listeners (process : Nat → Option ProcessRecord)
    (ranges : List PortRange) (socket : SocketInfo) : List ListenerInfo :=
  match socket.protocol_socket_info with
  | ProtocolSocketInfo.other => []
  | ProtocolSocketInfo.tcp tcp =>
    if tcp.state = TcpState.listen then
      if in_any_range tcp.local_port ranges then
        socket.associated_pids.map fun pid =>
          listener_row process tcp.local_port pid
      else []
    else []

/-- `scan_ports` from the source, over an `OsSnapshot`.  Returns the
result together with the trace of OS queries issued: nothing when
`ranges` is empty; only the socket-table read when it fails; the
socket-table read followed by the process-table read otherwise. -/
def scan_ports (os : OsSnapshot) (ranges : List PortRange) :
    Except String (List ListenerInfo) × List Query :=
  if ranges.isEmpty then
    (Except.ok [], [])
  else
    match os.sockets with
    | Except.error e => (Except.error e, [Query.socketTable])
    | Except.ok sockets =>
      (Except.ok (sockets.flatMap (socket_listeners os.process ranges)),
       [Query.socketTable, Query.processTable])

/-- The outcome of `std::process::Command::status()`: `success()` and
`code()` of an `ExitStatus`. -/
structure ExitStatus where
  success : Bool
  code : Option Int
deriving DecidableEq, Repr

/-- Result of attempting to run an external command: either the OS failed
to launch it at all (the `Err` of `status()`, already stringified as the
source's `map_err(|e| e.to_string())` does), or it ran and exited. -/
inductive CmdResult where
  | spawnError (msg : String)
  | exited (st : ExitStatus)
deriving DecidableEq, Repr

/-- Rust's `{:?}` rendering of an `Option<i32>` exit code, as used in the
source's error messages. -/
def optCodeRepr : Option Int → String
  | none => "None"
  | some c => "Some(" ++ toString c ++ ")"

/-- The `#[cfg(windows)]` branch of `kill_pid`: one forceful, tree-wide
`taskkill /PID <pid> /T /F`.  Parameterised by the command runner;
returns the result and the trace of commands issued. -/
def kill_pid_windows (runner : List String → CmdResult) (pid : Nat) :
    Except String Unit × List (List String) :=
  if pid = 0 then
    (Except.error "invalid pid", [])
  else
    let cmd := ["taskkill", "/PID", toString pid, "/T", "/F"]
    match runner cmd with
    | CmdResult.spawnError e => (Except.error e, [cmd])
    | CmdResult.exited status =>
      if status.success then
        (Except.ok (), [cmd])
      else
        (Except.error ("taskkill failed (exit " ++ optCodeRepr status.code ++ ")"),
         [cmd])

/-- The `#[cfg(not(windows))]` branch of `kill_pid`: `kill -TERM <pid>`,
and on non-success exit `kill -KILL <pid>` as a second attempt.
Parameterised by the command runner; returns the result and the trace of
commands issued. -/
def kill_pid_unix (runner : List String → CmdResult) (pid : Nat) :
    Except String Unit × List (List String) :=
  if pid = 0 then
    (Except.error "invalid pid", [])
  else
    let termCmd := ["kill", "-TERM", toString pid]
    match runner termCmd with
    | CmdResult.spawnError e => (Except.error e, [termCmd])
    | CmdResult.exited term =>
      if term.success then
        (Except.ok (), [termCmd])
      else
        let killCmd := ["kill", "-KILL", toString pid]
        match runner killCmd with
        | CmdResult.spawnError e => (Except.error e, [termCmd, killCmd])
        | CmdResult.exited kill =>
          if kill.success then
            (Except.ok (), [termCmd, killCmd])
          else
            (Except.error ("kill failed (exit " ++ optCodeRepr kill.code ++ ")"),
             [termCmd, killCmd])

/-! ## Helper lemmas -/

/-- `in_any_range` holds exactly when some supplied range contains the
port under the normalised bounds. -/
lemma in_any_range_iff (port : Nat) (ranges : List PortRange) :
    in_any_range port ranges = true ↔
      ∃ pr ∈ ranges,
        min pr.start pr.«end» ≤ port ∧ port ≤ max pr.start pr.«end» := by
  unfold in_any_range
  rw [List.any_eq_true]
  constructor
  · rintro ⟨r, hr, hb⟩
    refine ⟨r, hr, ?_⟩
    by_cases h : r.start ≤ r.«end» <;>
      simp only [h, if_true, if_false, Bool.and_eq_true, decide_eq_true_eq,
        ge_iff_le] at hb <;>
      constructor <;> omega
  · rintro ⟨r, hr, h1, h2⟩
    refine ⟨r, hr, ?_⟩
    by_cases h : r.start ≤ r.«end» <;>
      simp only [h, if_true, if_false, Bool.and_eq_true, decide_eq_true_eq,
        ge_iff_le] <;>
      constructor <;> omega

/-- No port is in an empty list of ranges. -/
lemma in_any_range_nil (port : Nat) : in_any_range port [] = false := rfl

/-- A list on which `in_any_range` succeeds is nonempty. -/
lemma isEmpty_false_of_in_any_range {port : Nat} {ranges : List PortRange}
    (h : in_any_range port ranges = true) : ranges.isEmpty = false := by
  cases ranges with
  | nil => exact absurd h (by simp [in_any_range_nil])
  | cons a l => rfl

/-- Unfolding `scan_ports` when the ranges are nonempty and the
socket-table read succeeds. -/
lemma scan_ports_ok_eq {os : OsSnapshot} {ranges : List PortRange}
    {sockets : List SocketInfo}
    (hne : ranges.isEmpty = false) (hs : os.sockets = Except.ok sockets) :
    scan_ports os ranges =
      (Except.ok (sockets.flatMap (socket_listeners os.process ranges)),
       [Query.socketTable, Query.processTable]) := by
  unfold scan_ports
  rw [hne, hs]
  rfl

/-- A listening, in-range TCP socket contributes exactly one row per
associated PID. -/
lemma socket_listeners_eq_map {process : Nat → Option ProcessRecord}
    {ranges : List PortRange} {socket : SocketInfo} {tcp : TcpSocketInfo}
    (hproto : socket.protocol_socket_info = ProtocolSocketInfo.tcp tcp)
    (hlisten : tcp.state = TcpState.listen)
    (hin : in_any_range tcp.local_port ranges = true) :
    socket_listeners process ranges socket =
      socket.associated_pids.map fun pid =>
        listener_row process tcp.local_port pid := by
  unfold socket_listeners
  rw [hproto]
  simp [hlisten, hin]

/-! ## Claims -/

/-- Claim C3: with an empty sequence of ranges, `scan_ports` returns the
empty sequence successfully and issues no OS query at all: neither the
socket-table read nor the process-table read appears in the trace. -/
theorem scan_ports_empty_no_queries (os : OsSnapshot) :
    scan_ports os [] = (Except.ok [], []) := rfl

/-- Claim C4: `kill_pid 0` fails with the invalid-argument error and
issues no OS command, on both the Windows (forceful-only) variant and
the non-Windows (graceful-then-forceful) variant. -/
theorem kill_pid_zero_invalid_no_command :
    (∀ runner : List String → CmdResult,
        kill_pid_windows runner 0 = (Except.error "invalid pid", [])) ∧
    (∀ runner : List String → CmdResult,
        kill_pid_unix runner 0 = (Except.error "invalid pid", [])) :=
  ⟨fun _ => rfl, fun _ => rfl⟩

/-- Claim C9: swapping the endpoints of a supplied range does not change
the result of `scan_ports` on any snapshot: a range with `start > end`
behaves exactly like the normalised range. -/
theorem scan_ports_swap_range (os : OsSnapshot) (s e : Nat) :
    scan_ports os [PortRange.mk s e] = scan_ports os [PortRange.mk e s] := by
  have hr : ∀ port : Nat,
      in_any_range port [PortRange.mk s e] =
        in_any_range port [PortRange.mk e s] := by
    intro port
    rw [Bool.eq_iff_iff, in_any_range_iff, in_any_range_iff]
    constructor
    · rintro ⟨pr, hpr, h⟩
      rw [List.mem_singleton] at hpr
      subst hpr
      have h' : min s e ≤ port ∧ port ≤ max s e := h
      exact ⟨PortRange.mk e s, List.mem_singleton.mpr rfl,
        show min e s ≤ port ∧ port ≤ max e s by omega⟩
    · rintro ⟨pr, hpr, h⟩
      rw [List.mem_singleton] at hpr
      subst hpr
      have h' : min e s ≤ port ∧ port ≤ max e s := h
      exact ⟨PortRange.mk s e, List.mem_singleton.mpr rfl,
        show min s e ≤ port ∧ port ≤ max s e by omega⟩
  have hsl : socket_listeners os.process [PortRange.mk s e] =
      socket_listeners os.process [PortRange.mk e s] := by
    funext socket
    unfold socket_listeners
    simp only [hr]
  unfold scan_ports
  cases os.sockets with
  | error e => rfl
  | ok sockets =>
    rw [hsl]
    rfl

/-- Membership helper: each socket contributes either nothing, or (when it
is a listening TCP socket whose port is in some range) one row per PID. -/
lemma socket_listeners_cases (process : Nat → Option ProcessRecord)
    (ranges : List PortRange) (socket : SocketInfo) :
    socket_listeners process ranges socket = [] ∨
    ∃ tcp, socket.protocol_socket_info = ProtocolSocketInfo.tcp tcp ∧
      tcp.state = TcpState.listen ∧
      in_any_range tcp.local_port ranges = true ∧
      socket_listeners process ranges socket =
        socket.associated_pids.map fun pid =>
          listener_row process tcp.local_port pid := by
  obtain ⟨proto, pids⟩ := socket
  cases proto with
  | other => exact Or.inl rfl
  | tcp tcp =>
    by_cases h1 : tcp.state = TcpState.listen
    · by_cases h2 : in_any_range tcp.local_port ranges = true
      · exact Or.inr ⟨tcp, rfl, h1, h2, by simp [socket_listeners, h1, h2]⟩
      · exact Or.inl (by simp [socket_listeners, h1, h2])
    · exact Or.inl (by simp [socket_listeners, h1])

/-- Unfolding `scan_ports` when the ranges are nonempty and the
socket-table read fails. -/
lemma scan_ports_error_eq {os : OsSnapshot} {ranges : List PortRange}
    {e : String}
    (hne : ranges.isEmpty = false) (hs : os.sockets = Except.error e) :
    scan_ports os ranges = (Except.error e, [Query.socketTable]) := by
  unfold scan_ports
  rw [hne, hs]
  rfl

/-- The scan result for a one-socket table holding a listening, in-range
TCP socket: one row per associated PID, independent of which ranges
matched. -/
lemma scan_ports_singleton_eq {os : OsSnapshot} {socket : SocketInfo}
    {tcp : TcpSocketInfo} {ranges : List PortRange}
    (hs : os.sockets = Except.ok [socket])
    (hproto : socket.protocol_socket_info = ProtocolSocketInfo.tcp tcp)
    (hlisten : tcp.state = TcpState.listen)
    (hin : in_any_range tcp.local_port ranges = true) :
    (scan_ports os ranges).1 =
      Except.ok (socket.associated_pids.map fun pid =>
        listener_row os.process tcp.local_port pid) := by
  have hne := isEmpty_false_of_in_any_range hin
  rw [scan_ports_ok_eq hne hs]
  simp [socket_listeners_eq_map hproto hlisten hin]

/-! ## Witness fixtures -/

/-- Fixture process table: PID 4242 is "myserver", up for 120 seconds;
every other PID is absent. -/
def procW : Nat → Option ProcessRecord := fun pid =>
  if pid = 4242 then some { name := "myserver", run_time := 120 } else none

/-- Fixture socket: a listening TCP socket on port 8005 reporting two
owning PIDs, 4242 (present in `procW`) and 7 (absent). -/
def socketW : SocketInfo :=
  { protocol_socket_info :=
      ProtocolSocketInfo.tcp { local_port := 8005, state := TcpState.listen }
    associated_pids := [4242, 7] }

/-- Fixture snapshot combining `socketW` and `procW`. -/
def osW : OsSnapshot := { sockets := Except.ok [socketW], process := procW }

/-- Fixture ranges: the single range 8000..8010. -/
def rangesW : List PortRange := [{ start := 8000, «end» := 8010 }]

/-- The rows `scan_ports` produces on the fixture snapshot. -/
def rowsW : List ListenerInfo :=
  [ { port := 8005, pid := 4242, process_name := some "myserver",
      started_seconds_ago := some 120 },
    { port := 8005, pid := 7, process_name := none,
      started_seconds_ago := none } ]

/-- Fixture snapshot whose socket-table read fails. -/
def osErrW : OsSnapshot :=
  { sockets := Except.error "query failed", process := fun _ => none }

/-- Fixture ranges: two overlapping ranges both containing 8005. -/
def rangesOverlapW : List PortRange :=
  [{ start := 8000, «end» := 8010 }, { start := 8005, «end» := 8005 }]

/-! ## Remaining claims -/

/-- Claim C1: every record returned by a successful `scan_ports` call has
a port contained in at least one supplied range, under the normalised
bounds `min(start,end) <= port <= max(start,end)`. -/
theorem scan_ports_result_in_range (os : OsSnapshot) (ranges : List PortRange)
    (out : List ListenerInfo)
    (hok : (scan_ports os ranges).1 = Except.ok out)
    (r : ListenerInfo) (hr : r ∈ out) :
    ∃ pr ∈ ranges,
      min pr.start pr.«end» ≤ r.port ∧ r.port ≤ max pr.start pr.«end» := by
  by_cases hemp : ranges.isEmpty = true
  · unfold scan_ports at hok
    rw [if_pos hemp] at hok
    have h0 : Except.ok ([] : List ListenerInfo) = Except.ok out := hok
    injection h0 with h0
    subst h0
    exact absurd hr (List.not_mem_nil r)
  · rw [Bool.not_eq_true] at hemp
    cases hsock : os.sockets with
    | error e =>
      rw [scan_ports_error_eq hemp hsock] at hok
      exact absurd hok (by simp)
    | ok sockets =>
      rw [scan_ports_ok_eq hemp hsock] at hok
      have h0 : Except.ok (sockets.flatMap (socket_listeners os.process ranges)) =
          Except.ok out := hok
      injection h0 with h0
      subst h0
      rw [List.mem_flatMap] at hr
      obtain ⟨socket, hsmem, hrs⟩ := hr
      rcases socket_listeners_cases os.process ranges socket with hnil | hfan
      · rw [hnil] at hrs
        exact absurd hrs (List.not_mem_nil r)
      · obtain ⟨tcp, _, _, hin, heq⟩ := hfan
        rw [heq, List.mem_map] at hrs
        obtain ⟨pid, _, hrow⟩ := hrs
        subst hrow
        exact (in_any_range_iff tcp.local_port ranges).mp hin

/-- Witness for C1 on the fixture scan. -/
theorem scan_ports_result_in_range_witness :
    ∃ pr ∈ rangesW,
      min pr.start pr.«end» ≤ 8005 ∧ 8005 ≤ max pr.start pr.«end» := by
  have h := scan_ports_result_in_range osW rangesW rowsW rfl
    { port := 8005, pid := 7, process_name := none, started_seconds_ago := none }
    (by decide)
  exact h

/-- Claim C5: with a non-empty range list, a failing socket-table read
makes `scan_ports` propagate the error, and the process-table read is
never attempted (the trace holds only the socket-table query). -/
theorem scan_ports_socket_error (os : OsSnapshot) (ranges : List PortRange)
    (hne : ranges ≠ []) (e : String) (hs : os.sockets = Except.error e) :
    scan_ports os ranges = (Except.error e, [Query.socketTable]) := by
  have hne' : ranges.isEmpty = false := by
    cases ranges with
    | nil => exact absurd rfl hne
    | cons a l => rfl
  exact scan_ports_error_eq hne' hs

/-- Witness for C5 on the failing fixture snapshot. -/
theorem scan_ports_socket_error_witness :
    scan_ports osErrW rangesW = (Except.error "query failed", [Query.socketTable]) :=
  scan_ports_socket_error osErrW rangesW (by decide) "query failed" rfl

/-- Claim C6: a listening, in-range socket whose owning PID is absent
from the process snapshot still yields a record, with the optional
fields `none` and the `pid` field equal to the socket's reported owner. -/
theorem scan_ports_missing_process (os : OsSnapshot) (ranges : List PortRange)
    (out : List ListenerInfo) (sockets : List SocketInfo)
    (hs : os.sockets = Except.ok sockets)
    (hok : (scan_ports os ranges).1 = Except.ok out)
    (socket : SocketInfo) (hmem : socket ∈ sockets)
    (tcp : TcpSocketInfo)
    (hproto : socket.protocol_socket_info = ProtocolSocketInfo.tcp tcp)
    (hlisten : tcp.state = TcpState.listen)
    (hin : in_any_range tcp.local_port ranges = true)
    (pid : Nat) (hpid : pid ∈ socket.associated_pids)
    (habsent : os.process pid = none) :
    ListenerInfo.mk tcp.local_port pid none none ∈ out := by
  have hne := isEmpty_false_of_in_any_range hin
  rw [scan_ports_ok_eq hne hs] at hok
  have h0 : Except.ok (sockets.flatMap (socket_listeners os.process ranges)) =
      Except.ok out := hok
  injection h0 with h0
  subst h0
  rw [List.mem_flatMap]
  refine ⟨socket, hmem, ?_⟩
  rw [socket_listeners_eq_map hproto hlisten hin, List.mem_map]
  exact ⟨pid, hpid, by simp [listener_row, habsent]⟩

/-- Witness for C6: PID 7 is absent from `procW`, yet the fixture scan
contains the degraded record for it. -/
theorem scan_ports_missing_process_witness :
    ListenerInfo.mk 8005 7 none none ∈ rowsW := by
  have h := scan_ports_missing_process osW rangesW rowsW [socketW] rfl rfl
    socketW (by decide) { local_port := 8005, state := TcpState.listen }
    rfl rfl (by decide) 7 (by decide) rfl
  exact h

/-- Claim C7: a listening socket whose port is in some range yields
exactly one record per owning PID, all carrying the socket's port: two
PIDs give two records, zero PIDs give zero records and no error. -/
theorem scan_ports_fanout_per_pid (os : OsSnapshot) (ranges : List PortRange)
    (socket : SocketInfo) (tcp : TcpSocketInfo)
    (hs : os.sockets = Except.ok [socket])
    (hproto : socket.protocol_socket_info = ProtocolSocketInfo.tcp tcp)
    (hlisten : tcp.state = TcpState.listen)
    (hin : in_any_range tcp.local_port ranges = true) :
    (scan_ports os ranges).1 =
      Except.ok (socket.associated_pids.map fun pid =>
        listener_row os.process tcp.local_port pid) ∧
    ∀ out, (scan_ports os ranges).1 = Except.ok out →
      out.length = socket.associated_pids.length ∧
      ∀ r ∈ out, r.port = tcp.local_port := by
  refine ⟨scan_ports_singleton_eq hs hproto hlisten hin, ?_⟩
  intro out hout
  rw [scan_ports_singleton_eq hs hproto hlisten hin] at hout
  injection hout with hout
  subst hout
  refine ⟨by simp, ?_⟩
  intro r hr
  rw [List.mem_map] at hr
  obtain ⟨pid, _, hrow⟩ := hr
  subst hrow
  rfl

/-- Witness for C7: the fixture socket reports two PIDs and the scan
yields exactly its two rows. -/
theorem scan_ports_fanout_per_pid_witness :
    (scan_ports osW rangesW).1 = Except.ok rowsW ∧ rowsW.length = 2 := by
  have h := scan_ports_fanout_per_pid osW rangesW socketW
    { local_port := 8005, state := TcpState.listen } rfl rfl rfl (by decide)
  exact ⟨h.1.trans (by rfl), rfl⟩

/-- Claim C8: overlapping ranges are not deduplicated per range: for a
listening socket in range, the output is one row per owning PID, and any
other range list on which the containment test also succeeds produces
the very same output — the row count depends only on whether at least
one range contains the port, never on how many do. -/
theorem scan_ports_overlap_no_dedup (os : OsSnapshot) (socket : SocketInfo)
    (tcp : TcpSocketInfo)
    (hs : os.sockets = Except.ok [socket])
    (hproto : socket.protocol_socket_info = ProtocolSocketInfo.tcp tcp)
    (hlisten : tcp.state = TcpState.listen)
    (ranges : List PortRange)
    (hin : in_any_range tcp.local_port ranges = true) :
    ∃ out, (scan_ports os ranges).1 = Except.ok out ∧
      out.length = socket.associated_pids.length ∧
      ∀ ranges2 : List PortRange, in_any_range tcp.local_port ranges2 = true →
        (scan_ports os ranges2).1 = Except.ok out := by
  refine ⟨socket.associated_pids.map fun pid =>
    listener_row os.process tcp.local_port pid,
    scan_ports_singleton_eq hs hproto hlisten hin, by simp, ?_⟩
  intro ranges2 hin2
  exact scan_ports_singleton_eq hs hproto hlisten hin2

/-- Witness for C8: port 8005 lies in both fixture overlapping ranges,
and the output is the per-PID fan-out of the fixture socket. -/
theorem scan_ports_overlap_no_dedup_witness :
    ∃ out, (scan_ports osW rangesOverlapW).1 = Except.ok out ∧
      out.length = socketW.associated_pids.length ∧
      ∀ ranges2 : List PortRange, in_any_range 8005 ranges2 = true →
        (scan_ports osW ranges2).1 = Except.ok out := by
  exact scan_ports_overlap_no_dedup osW socketW
    { local_port := 8005, state := TcpState.listen } rfl rfl rfl
    rangesOverlapW (by decide)

/-- Fixture runner for the escalation witness: the graceful `-TERM`
command runs but exits unsuccessfully; every other command (in
particular the forceful `-KILL`) exits successfully. -/
def runnerEscW : List String → CmdResult := fun args =>
  if args = ["kill", "-KILL", "5"] then
    CmdResult.exited { success := true, code := some 0 }
  else
    CmdResult.exited { success := false, code := some 1 }

/-- Fixture runner that fails to launch any command. -/
def runnerSpawnW : List String → CmdResult :=
  fun _ => CmdResult.spawnError "spawn failure"

/-- Claim C2: on the graceful-then-forceful variant, for a nonzero PID
whose two commands both run to an exit status: graceful success returns
success without issuing the forceful command; graceful failure followed
by forceful success returns success; both failing returns the error
carrying the forceful attempt's exit code. -/
theorem kill_pid_unix_escalation (runner : List String → CmdResult)
    (pid : Nat) (hpid : pid ≠ 0) (term kill : ExitStatus)
    (hterm : runner ["kill", "-TERM", toString pid] = CmdResult.exited term)
    (hkill : runner ["kill", "-KILL", toString pid] = CmdResult.exited kill) :
    (term.success = true →
      kill_pid_unix runner pid =
        (Except.ok (), [["kill", "-TERM", toString pid]])) ∧
    (term.success = false → kill.success = true →
      (kill_pid_unix runner pid).1 = Except.ok ()) ∧
    (term.success = false → kill.success = false →
      (kill_pid_unix runner pid).1 =
        Except.error ("kill failed (exit " ++ optCodeRepr kill.code ++ ")")) := by
  refine ⟨?_, ?_, ?_⟩
  · intro h
    simp [kill_pid_unix, hpid, hterm, h]
  · intro h1 h2
    simp [kill_pid_unix, hpid, hterm, hkill, h1, h2]
  · intro h1 h2
    simp [kill_pid_unix, hpid, hterm, hkill, h1, h2]

/-- Witness for C2: with `runnerEscW`, the graceful attempt on PID 5
fails and the forceful one succeeds, so termination succeeds. -/
theorem kill_pid_unix_escalation_witness :
    (5 : Nat) ≠ 0 ∧ (kill_pid_unix runnerEscW 5).1 = Except.ok () := by
  refine ⟨by decide, ?_⟩
  have h := kill_pid_unix_escalation runnerEscW 5 (by decide)
    { success := false, code := some 1 } { success := true, code := some 0 }
    (by decide) (by decide)
  exact h.2.1 rfl rfl

/-- Claim C10: on the graceful-then-forceful variant, if the OS cannot
launch the graceful command at all, `kill_pid` returns that error
immediately and the forceful command is never issued: the trace holds
only the graceful command line. -/
theorem kill_pid_unix_spawn_error (runner : List String → CmdResult)
    (pid : Nat) (hpid : pid ≠ 0) (e : String)
    (hspawn : runner ["kill", "-TERM", toString pid] = CmdResult.spawnError e) :
    kill_pid_unix runner pid =
      (Except.error e, [["kill", "-TERM", toString pid]]) := by
  simp [kill_pid_unix, hpid, hspawn]

/-- Witness for C10: a runner whose commands never launch makes
`kill_pid` report the spawn failure for PID 5 after the graceful attempt
alone. -/
theorem kill_pid_unix_spawn_error_witness :
    kill_pid_unix runnerSpawnW 5 =
      (Except.error "spawn failure", [["kill", "-TERM", toString 5]]) := by
  exact kill_pid_unix_spawn_error runnerSpawnW 5 (by decide) "spawn failure" rfl
